import Mathlib

/-!
# log4cxx `net::SocketAppender`

A shallow embedding of `include/log4cxx/net/socketappender.h`.

* The member functions defined inline in the header (`requiresLayout`, the
  option setters and getters) are translated statement by statement.
* A member function that may throw returns the pair of its outcome
  (`Except`) and the object state at the moment it is left, so that the
  assignments executed before a throw stay visible.
* The C++ `int` is embedded as `Int`: the header performs no arithmetic on
  the option values, they are only stored and read back.
* Member functions that the header only declares (`close`, `cleanUp`,
  `connect`, `append`, `activateOptions`, `setOption`, `fireConnector`,
  `Connector::run`, the constructors and the two static defaults) have their
  bodies in `socketappender.cpp`; their embeddings follow the specification,
  its invariants included, and say so in their doc comments.
-/

namespace log4cxx

/-- Smallest value of the 32 bit C++ `int`. -/
def INT_MIN : Int := -2147483648

/-- Largest value of the 32 bit C++ `int`. -/
def INT_MAX : Int := 2147483647

/-- Whether an integer is a value of the C++ `int` type. -/
def isInt (d : Int) : Bool := decide (INT_MIN ≤ d) && decide (d ≤ INT_MAX)

/-- The `tstring` typedef of the library. -/
abbrev tstring := String

namespace helpers

/-- Modelled from the spec: `helpers::InetAddress` is declared in
`log4cxx/helpers/socket.h`, outside this source tree. The spec calls it the
`resolvedAddress: IP` of an Endpoint; it is kept as the `unsigned long` that
the constructor `SocketAppender(unsigned long address, int port)` accepts. -/
structure InetAddress where
  address : Nat
deriving DecidableEq, Repr

/-- Modelled from the spec: `helpers::SocketOutputStream` is only forward
declared in the header. The spec calls it the OutputChannel, which owns
exactly one live transport connection; the connection is named by a handle. -/
structure SocketOutputStream where
  handle : Nat
deriving DecidableEq, Repr

end helpers

namespace net

open helpers

/-- The data members of `SocketAppender::Connector` (lines 258-266). The back
pointer `socketAppender` is the owning object and is not stored again. -/
structure Connector where
  interrupted : Bool
deriving DecidableEq, Repr

/-- The object state of a `SocketAppender` (lines 120-134 and 268), together
with the `closed` flag it inherits from `AppenderSkeleton` (the flag that
`close` sets, lines 160-166). A null `os` or `connector` pointer is `none`. -/
structure SocketAppender where
  closed : Bool
  remoteHost : tstring
  address : InetAddress
  port : Int
  os : Option SocketOutputStream
  reconnectionDelay : Int
  locationInfo : Bool
  connector : Option Connector
deriving DecidableEq, Repr

namespace SocketAppender

/-- Lines 183-184: `bool requiresLayout() { return false; }`. The member is
not `const`, so the state after the call is returned as well. -/
def requiresLayout (s : SocketAppender) : Bool × SocketAppender :=
  (false, s)

/-- Lines 191-193:
`address = helpers::InetAddress::getByName(host); remoteHost = host;`.
`InetAddress::getByName` lives outside this source tree and is a parameter;
when it throws, the exception leaves the setter before either assignment. -/
def setRemoteHost {ε : Type} (getByName : tstring → Except ε InetAddress)
    (host : tstring) (s : SocketAppender) : Except ε Unit × SocketAppender :=
  match getByName host with
  | .error e => (.error e, s)
  | .ok a =>
    let s1 := { s with address := a }
    let s2 := { s1 with remoteHost := host }
    (.ok (), s2)

/-- Lines 198-199: `return remoteHost;`. -/
def getRemoteHost (s : SocketAppender) : tstring := s.remoteHost

/-- Lines 205-206: `this->port = port;`. -/
def setPort (port : Int) (s : SocketAppender) : SocketAppender :=
  { s with port := port }

/-- Lines 211-212: `return port;`. -/
def getPort (s : SocketAppender) : Int := s.port

/-- Lines 219-220: `this->locationInfo = locationInfo;`. -/
def setLocationInfo (locationInfo : Bool) (s : SocketAppender) : SocketAppender :=
  { s with locationInfo := locationInfo }

/-- Lines 225-226: `return locationInfo;`. -/
def getLocationInfo (s : SocketAppender) : Bool := s.locationInfo

/-- Lines 237-238: `this->reconnectionDelay = reconnectionDelay;`. -/
def setReconnectionDelay (reconnectionDelay : Int) (s : SocketAppender) : SocketAppender :=
  { s with reconnectionDelay := reconnectionDelay }

/-- Lines 243-244: `return reconnectionDelay;`. -/
def getReconnectionDelay (s : SocketAppender) : Int := s.reconnectionDelay

/-! ### Members whose bodies are in `socketappender.cpp` -/

/-- Modelled from the spec: the value of the static `DEFAULT_PORT` (declared on
line 113, defined in `socketappender.cpp`). The spec gives the port default as
4560, as does the comment on lines 110-112. -/
def DEFAULT_PORT : Int := 4560

/-- Modelled from the spec: the value of the static
`DEFAULT_RECONNECTION_DELAY` (declared on line 118, defined in
`socketappender.cpp`). The spec gives the delay default as 30000 ms, as does
the comment on lines 115-117. -/
def DEFAULT_RECONNECTION_DELAY : Int := 30000

/-- Modelled from the spec: the default constructor `SocketAppender()`
(declared on line 137, body in `socketappender.cpp`). The spec creates the
appender unconfigured: port 4560, reconnection delay 30000, location info
off, no channel, no Reconnector, not closed. The value of a default
constructed `InetAddress` is not visible and is passed in. -/
def create (noAddress : InetAddress) : SocketAppender :=
  { closed := false, remoteHost := "", address := noAddress, port := DEFAULT_PORT,
    os := none, reconnectionDelay := DEFAULT_RECONNECTION_DELAY, locationInfo := false,
    connector := none }

/-- Modelled from the spec: `fireConnector()` (declared on line 246, body in
`socketappender.cpp`). Invariant I3: once `closed` is true no new Reconnector
is ever started. Invariant I2 and section 4.1: a Reconnector is started only
"if not already running", at most one per appender. A new Reconnector is in
state Running, its stop flag clear. -/
def fireConnector (s : SocketAppender) : SocketAppender :=
  if s.closed then s
  else
    match s.connector with
    | some _ => s
    | none => { s with connector := some { interrupted := false } }

/-- Modelled from the spec: `cleanUp()` (declared on line 172, body in
`socketappender.cpp`). Its header comment: drop the connection to the remote
host and release the underlying connector thread if it has been created; the
spec: request any live Reconnector to stop, wait for it to terminate, discard
the channel. -/
def cleanUp (s : SocketAppender) : SocketAppender :=
  let s1 := { s with os := none }
  match s1.connector with
  | none => s1
  | some _ => { s1 with connector := none }

/-- Modelled from the spec: `close()` (declared on line 166, body in
`socketappender.cpp`). Its header comment: mark the appender as closed and
then call `cleanUp`; the spec: set `closed = true`, stop the Reconnector,
discard the channel. -/
def close (s : SocketAppender) : SocketAppender :=
  cleanUp { s with closed := true }

/-- Modelled from the spec: `connect()` (declared on line 174, body in
`socketappender.cpp`), the one synchronous connect attempt of section 4.1.
Invariant I3 and the lifecycle ("`close()` is terminal"): on a closed appender
the channel is permanently null, so nothing is attempted. Otherwise, on
success the OutputChannel is installed; on failure a Reconnector is started
if the delay is positive, else the appender is left without background task.
`connectResult` is the outcome of the attempt (`none` is a ConnectError). -/
def connect (connectResult : Option SocketOutputStream) (s : SocketAppender) :
    SocketAppender :=
  if s.closed then s
  else
    match connectResult with
    | some channel => { s with os := some channel }
    | none => if 0 < s.reconnectionDelay then fireConnector s else s

/-- Modelled from the spec: `activateOptions()` (declared on line 153, body in
`socketappender.cpp`; header comment: connect to the specified RemoteHost and
Port). Invariant I3 and the lifecycle ("`close()` is terminal"): a closed
appender is left alone. Otherwise, section 4.1: resolve the endpoint if not
already resolved, then attempt one synchronous connect; a resolution error is
surfaced, the appender remains as it was and no Reconnector is started.
`isResolved` tells whether an address holds a resolution. -/
def activateOptions {ε : Type} (getByName : tstring → Except ε InetAddress)
    (isResolved : InetAddress → Bool) (connectResult : Option SocketOutputStream)
    (s : SocketAppender) : Except ε Unit × SocketAppender :=
  if s.closed then (.ok (), s)
  else
    match (if isResolved s.address then .ok s.address else getByName s.remoteHost) with
    | .error e => (.error e, s)
    | .ok a => (.ok (), connect connectResult { s with address := a })

/-- Modelled from the spec: `setOption(option, value)` (declared on line 158,
body in `socketappender.cpp`), the `configure` of section 4.1: the keys
`RemoteHost`, `Port`, `LocationInfo` and `ReconnectionDelay` go to their
setters, unknown keys are ignored, no connection is opened. The conversions of
the value text (`toInt`, `toBoolean`) are external and passed in. -/
def setOption {ε : Type} (getByName : tstring → Except ε InetAddress)
    (toInt : String → Int) (toBoolean : String → Bool) (option value : String)
    (s : SocketAppender) : Except ε Unit × SocketAppender :=
  if option = "RemoteHost" then setRemoteHost getByName value s
  else if option = "Port" then (.ok (), setPort (toInt value) s)
  else if option = "LocationInfo" then (.ok (), setLocationInfo (toBoolean value) s)
  else if option = "ReconnectionDelay" then (.ok (), setReconnectionDelay (toInt value) s)
  else (.ok (), s)

/-- Modelled from the spec: `append(event)` (declared on line 177, body in
`socketappender.cpp`). The spec, section 4.1: no-op if closed; if the channel
is null the event is dropped; otherwise the event is serialized (with
location metadata when `locationInfo` is set) and written; on an IOError the
channel is set to null and a Reconnector is started if the delay is positive
and none is running. `event` is the external serializer applied to the
record, as a function of the location flag; `write` returns false on an
IOError. -/
def append (write : SocketOutputStream → List Nat → Bool) (event : Bool → List Nat)
    (s : SocketAppender) : SocketAppender :=
  if s.closed then s
  else
    match s.os with
    | none => s
    | some channel =>
      if write channel (event s.locationInfo) then s
      else
        let s1 := { s with os := none }
        if 0 < s1.reconnectionDelay then fireConnector s1 else s1

/-- Modelled from the spec: one wake of `Connector::run()` (declared on line
265, body in `socketappender.cpp`) after its sleep. The spec, section 4.2: if
a stop was requested, or the owning appender is closed, stop without
connecting; otherwise attempt to connect; on success install the channel and
stop; on failure remain Running. A stopped Reconnector is no longer held by
the appender. Without a Reconnector nothing happens. -/
def connectorRun (connectResult : Option SocketOutputStream)
    (s : SocketAppender) : SocketAppender :=
  match s.connector with
  | none => s
  | some c =>
    if c.interrupted || s.closed then { s with connector := none }
    else
      match connectResult with
      | some channel => { s with os := some channel, connector := none }
      | none => s

end SocketAppender

/-- One call on an appender (every public member of the class, and a wake of
its connector thread), together with what the external collaborators (name
resolver, text conversions, connect attempt, stream write) answer during that
call. -/
inductive Op (ε : Type) where
  | requiresLayout
  | setRemoteHost (getByName : tstring → Except ε InetAddress) (host : tstring)
  | setPort (port : Int)
  | setLocationInfo (locationInfo : Bool)
  | setReconnectionDelay (reconnectionDelay : Int)
  | setOption (getByName : tstring → Except ε InetAddress) (toInt : String → Int)
      (toBoolean : String → Bool) (option value : String)
  | activateOptions (getByName : tstring → Except ε InetAddress)
      (isResolved : InetAddress → Bool) (connectResult : Option SocketOutputStream)
  | connect (connectResult : Option SocketOutputStream)
  | fireConnector
  | cleanUp
  | append (write : SocketOutputStream → List Nat → Bool) (event : Bool → List Nat)
  | close
  | connectorRun (connectResult : Option SocketOutputStream)

/-- The appender state after one call. -/
def Op.apply {ε : Type} (op : Op ε) (s : SocketAppender) : SocketAppender :=
  match op with
  | .requiresLayout => (s.requiresLayout).2
  | .setRemoteHost getByName host => (s.setRemoteHost getByName host).2
  | .setPort port => s.setPort port
  | .setLocationInfo locationInfo => s.setLocationInfo locationInfo
  | .setReconnectionDelay reconnectionDelay => s.setReconnectionDelay reconnectionDelay
  | .setOption getByName toInt toBoolean option value =>
    (s.setOption getByName toInt toBoolean option value).2
  | .activateOptions getByName isResolved connectResult =>
    (s.activateOptions getByName isResolved connectResult).2
  | .connect connectResult => s.connect connectResult
  | .fireConnector => s.fireConnector
  | .cleanUp => s.cleanUp
  | .append write event => s.append write event
  | .close => s.close
  | .connectorRun connectResult => s.connectorRun connectResult

/-- The appender state after a sequence of calls, first call first. -/
def runOps {ε : Type} (ops : List (Op ε)) (s : SocketAppender) : SocketAppender :=
  ops.foldl (fun t op => op.apply t) s

/-! ## Sample inputs -/

/-- A resolver that knows one host, `localhost`, and throws on every other name. -/
def sampleResolver : tstring → Except String InetAddress :=
  fun h => if h = "localhost" then .ok ⟨2130706433⟩ else .error "unknown host"

/-- A connected appender with every field written out. -/
def sampleAppender : SocketAppender :=
  { closed := false, remoteHost := "loghost", address := ⟨3232235777⟩, port := 4560,
    os := some ⟨7⟩, reconnectionDelay := 30000, locationInfo := true, connector := none }

open SocketAppender

/-- C1: `requiresLayout()` returns false in every appender state and hands the
state back with every field as it was. -/
theorem requiresLayout_false_and_pure (s : SocketAppender) :
    (requiresLayout s).1 = false ∧ (requiresLayout s).2 = s :=
  ⟨rfl, rfl⟩

/-- C2: when `getByName h` succeeds with address `a`, `setRemoteHost(h)`
returns normally, `getRemoteHost()` is `h` afterwards and the address field
is `a`, the resolution of the new argument. -/
theorem setRemoteHost_resolves_argument {ε : Type}
    (getByName : tstring → Except ε InetAddress) (s : SocketAppender)
    (h : tstring) (a : InetAddress) (hres : getByName h = .ok a) :
    (setRemoteHost getByName h s).1 = .ok () ∧
    getRemoteHost (setRemoteHost getByName h s).2 = h ∧
    (setRemoteHost getByName h s).2.address = a := by
  simp [setRemoteHost, getRemoteHost, hres]

/-- The resolution theorem applied to the host `localhost`, which the sample
resolver knows. -/
theorem setRemoteHost_resolves_argument_witness :
    sampleResolver "localhost" = .ok ⟨2130706433⟩ ∧
    ((setRemoteHost sampleResolver "localhost" sampleAppender).1 = .ok () ∧
     getRemoteHost (setRemoteHost sampleResolver "localhost" sampleAppender).2 = "localhost" ∧
     (setRemoteHost sampleResolver "localhost" sampleAppender).2.address = ⟨2130706433⟩) :=
  ⟨by simp [sampleResolver], setRemoteHost_resolves_argument sampleResolver sampleAppender
    "localhost" ⟨2130706433⟩ (by simp [sampleResolver])⟩

/-- C3: each option getter returns the value last given to its setter:
`getPort` after `setPort(p)` is `p`, `getLocationInfo` after
`setLocationInfo(b)` is `b`, `getReconnectionDelay` after
`setReconnectionDelay(d)` is `d`. -/
theorem getter_after_setter (s : SocketAppender) (p : Int) (b : Bool) (d : Int) :
    getPort (setPort p s) = p ∧
    getLocationInfo (setLocationInfo b s) = b ∧
    getReconnectionDelay (setReconnectionDelay d s) = d :=
  ⟨rfl, rfl, rfl⟩

/-- C4, as stated, fails: `-1` is a value of `int`, and after
`setReconnectionDelay(-1)` the stored delay is negative. -/
theorem setReconnectionDelay_stores_negative :
    isInt (-1) = true ∧ getReconnectionDelay (setReconnectionDelay (-1) sampleAppender) < 0 := by
  decide

/-- C4, amended: the setter stores its argument unchecked, so for every
appender state and every `d ≥ 0` the stored delay after
`setReconnectionDelay(d)` is `d` and is `≥ 0`. -/
theorem setReconnectionDelay_nonneg (s : SocketAppender) (d : Int) (hd : 0 ≤ d) :
    getReconnectionDelay (setReconnectionDelay d s) = d ∧
    0 ≤ getReconnectionDelay (setReconnectionDelay d s) :=
  ⟨rfl, hd⟩

/-- The amended delay theorem at `d = 0`, the value that turns reconnection off. -/
theorem setReconnectionDelay_nonneg_witness :
    (0 : Int) ≤ 0 ∧
    (getReconnectionDelay (setReconnectionDelay 0 sampleAppender) = 0 ∧
     0 ≤ getReconnectionDelay (setReconnectionDelay 0 sampleAppender)) :=
  ⟨le_refl 0, setReconnectionDelay_nonneg sampleAppender 0 (le_refl 0)⟩

/-- C5: no option setter opens a connection or touches a field that is not its
own. `setRemoteHost` (whether the resolution succeeds or throws) keeps `os`,
`connector`, `port`, `locationInfo`, `reconnectionDelay` and `closed`;
`setPort` changes `port` only, `setLocationInfo` changes `locationInfo` only,
`setReconnectionDelay` changes `reconnectionDelay` only. -/
theorem setters_frame {ε : Type} (getByName : tstring → Except ε InetAddress)
    (s : SocketAppender) (h : tstring) (p : Int) (b : Bool) (d : Int) :
    ((setRemoteHost getByName h s).2.os = s.os ∧
     (setRemoteHost getByName h s).2.connector = s.connector ∧
     (setRemoteHost getByName h s).2.port = s.port ∧
     (setRemoteHost getByName h s).2.locationInfo = s.locationInfo ∧
     (setRemoteHost getByName h s).2.reconnectionDelay = s.reconnectionDelay ∧
     (setRemoteHost getByName h s).2.closed = s.closed) ∧
    setPort p s = { s with port := p } ∧
    ((setPort p s).os = s.os ∧ (setPort p s).connector = s.connector ∧
     (setPort p s).remoteHost = s.remoteHost ∧ (setPort p s).address = s.address ∧
     (setPort p s).locationInfo = s.locationInfo ∧
     (setPort p s).reconnectionDelay = s.reconnectionDelay ∧
     (setPort p s).closed = s.closed) ∧
    ((setLocationInfo b s).os = s.os ∧ (setLocationInfo b s).connector = s.connector ∧
     (setLocationInfo b s).remoteHost = s.remoteHost ∧
     (setLocationInfo b s).address = s.address ∧
     (setLocationInfo b s).port = s.port ∧
     (setLocationInfo b s).reconnectionDelay = s.reconnectionDelay ∧
     (setLocationInfo b s).closed = s.closed) ∧
    ((setReconnectionDelay d s).os = s.os ∧
     (setReconnectionDelay d s).connector = s.connector ∧
     (setReconnectionDelay d s).remoteHost = s.remoteHost ∧
     (setReconnectionDelay d s).address = s.address ∧
     (setReconnectionDelay d s).port = s.port ∧
     (setReconnectionDelay d s).locationInfo = s.locationInfo ∧
     (setReconnectionDelay d s).closed = s.closed) := by
  refine ⟨?_, rfl, ⟨rfl, rfl, rfl, rfl, rfl, rfl, rfl⟩, ⟨rfl, rfl, rfl, rfl, rfl, rfl, rfl⟩,
    ⟨rfl, rfl, rfl, rfl, rfl, rfl, rfl⟩⟩
  unfold setRemoteHost
  cases getByName h <;> exact ⟨rfl, rfl, rfl, rfl, rfl, rfl⟩

/-- C9: when `getByName h` throws `e`, `setRemoteHost(h)` ends with that same
error and the appender state, `remoteHost` and `address` included, is exactly
the state before the call. -/
theorem setRemoteHost_failure_atomic {ε : Type}
    (getByName : tstring → Except ε InetAddress) (s : SocketAppender)
    (h : tstring) (e : ε) (hres : getByName h = .error e) :
    setRemoteHost getByName h s = (.error e, s) := by
  simp [setRemoteHost, hres]

/-- The failure theorem applied to a host name the sample resolver does not know. -/
theorem setRemoteHost_failure_atomic_witness :
    sampleResolver "nowhere" = .error "unknown host" ∧
    setRemoteHost sampleResolver "nowhere" sampleAppender =
      (.error "unknown host", sampleAppender) :=
  ⟨by simp [sampleResolver], setRemoteHost_failure_atomic sampleResolver sampleAppender
    "nowhere" "unknown host" (by simp [sampleResolver])⟩

/-- C10: the scalar setters commute and the last write wins: the six orders of
`setPort(p)`, `setLocationInfo(b)`, `setReconnectionDelay(d)` end in the same
state, and calling a setter with `x` and then with `y` equals calling it with
`y` alone. -/
theorem scalar_setters_commute_last_wins (s : SocketAppender) (p q : Int) (b c : Bool)
    (d e : Int) :
    (setLocationInfo b (setPort p (setReconnectionDelay d s)) =
       setReconnectionDelay d (setLocationInfo b (setPort p s)) ∧
     setPort p (setLocationInfo b (setReconnectionDelay d s)) =
       setReconnectionDelay d (setLocationInfo b (setPort p s)) ∧
     setReconnectionDelay d (setPort p (setLocationInfo b s)) =
       setReconnectionDelay d (setLocationInfo b (setPort p s)) ∧
     setPort p (setReconnectionDelay d (setLocationInfo b s)) =
       setReconnectionDelay d (setLocationInfo b (setPort p s)) ∧
     setLocationInfo b (setReconnectionDelay d (setPort p s)) =
       setReconnectionDelay d (setLocationInfo b (setPort p s))) ∧
    setPort q (setPort p s) = setPort q s ∧
    setLocationInfo c (setLocationInfo b s) = setLocationInfo c s ∧
    setReconnectionDelay e (setReconnectionDelay d s) = setReconnectionDelay e s :=
  ⟨⟨rfl, rfl, rfl, rfl, rfl⟩, rfl, rfl, rfl⟩

/-! ## The members modelled from the specification -/

/-- C8: an appender created by the default constructor has
`port = DEFAULT_PORT = 4560`,
`reconnectionDelay = DEFAULT_RECONNECTION_DELAY = 30000` and
`locationInfo = false`. -/
theorem create_defaults (noAddress : InetAddress) :
    getPort (create noAddress) = DEFAULT_PORT ∧ DEFAULT_PORT = 4560 ∧
    getReconnectionDelay (create noAddress) = DEFAULT_RECONNECTION_DELAY ∧
    DEFAULT_RECONNECTION_DELAY = 30000 ∧
    getLocationInfo (create noAddress) = false :=
  ⟨rfl, rfl, rfl, rfl, rfl⟩

/-- After `close` the appender is closed, has no channel and no connector. -/
theorem close_fields (s : SocketAppender) :
    (close s).closed = true ∧ (close s).os = none ∧ (close s).connector = none := by
  unfold close cleanUp
  cases hc : s.connector <;> simp [hc]

/-- Every call keeps a closed appender closed, without channel and without
connector. -/
theorem apply_keeps_closed {ε : Type} (op : Op ε) (s : SocketAppender)
    (h : s.closed = true ∧ s.os = none ∧ s.connector = none) :
    (op.apply s).closed = true ∧ (op.apply s).os = none ∧ (op.apply s).connector = none := by
  obtain ⟨h1, h2, h3⟩ := h
  cases op with
  | requiresLayout => exact ⟨h1, h2, h3⟩
  | setRemoteHost g host =>
    simp only [Op.apply, setRemoteHost]
    cases g host <;> exact ⟨h1, h2, h3⟩
  | setPort p => exact ⟨h1, h2, h3⟩
  | setLocationInfo b => exact ⟨h1, h2, h3⟩
  | setReconnectionDelay d => exact ⟨h1, h2, h3⟩
  | setOption g toInt toBoolean option value =>
    simp only [Op.apply, setOption]
    split
    · simp only [setRemoteHost]
      cases g value <;> exact ⟨h1, h2, h3⟩
    · split
      · exact ⟨h1, h2, h3⟩
      · split
        · exact ⟨h1, h2, h3⟩
        · split <;> exact ⟨h1, h2, h3⟩
  | activateOptions g r c => simp [Op.apply, activateOptions, h1, h2, h3]
  | connect c => simp [Op.apply, connect, h1, h2, h3]
  | fireConnector => simp [Op.apply, fireConnector, h1, h2, h3]
  | cleanUp => simp [Op.apply, cleanUp, h1, h3]
  | append w e => simp [Op.apply, append, h1, h2, h3]
  | close => exact close_fields s
  | connectorRun c => simp [Op.apply, connectorRun, h1, h2, h3]

/-- Every sequence of calls keeps a closed appender closed, without channel and
without connector. -/
theorem runOps_keeps_closed {ε : Type} (ops : List (Op ε)) (s : SocketAppender)
    (h : s.closed = true ∧ s.os = none ∧ s.connector = none) :
    (runOps ops s).closed = true ∧ (runOps ops s).os = none ∧
    (runOps ops s).connector = none := by
  induction ops generalizing s with
  | nil => exact h
  | cons op rest ih =>
    have h2 := ih (op.apply s) (apply_keeps_closed op s h)
    simpa [runOps] using h2

/-- C7: `close()` is idempotent and terminal. From every appender state, after
`close()` the appender is marked closed, its output stream is null and it has
no connector; a second `close()` leaves that state unchanged; and after every
later sequence of calls (any public member, any connector wake, whatever the
resolver, the connect attempts and the writes answer) it is still closed,
still without channel and still without connector. -/
theorem close_idempotent_and_terminal {ε : Type} (s : SocketAppender) (ops : List (Op ε)) :
    ((close s).closed = true ∧ (close s).os = none ∧ (close s).connector = none) ∧
    close (close s) = close s ∧
    ((runOps ops (close s)).closed = true ∧ (runOps ops (close s)).os = none ∧
     (runOps ops (close s)).connector = none) := by
  refine ⟨close_fields s, ?_, runOps_keeps_closed ops (close s) (close_fields s)⟩
  unfold close cleanUp
  cases hc : s.connector <;> simp [hc]

end net

end log4cxx
